import Mathlib

/-!
Verification of the system-prompt assembly engine of the Bloom-Nexus/cline
repository.

The assembly core is `SYSTEM_PROMPT` (src/core/prompts/index.ts): it renders a
fixed list of prompt sections, conditionally splices the browser-action section
at index 3 when `supportsComputerUse` is set, and joins everything with a
double-newline separator.  The section renderers present in the repository
(getRulesPrompt, getMcpServersPrompt, getMcpCreationPrompt, getSystemInfoPrompt,
getBrowserActionPrompt, getPlanModeResponsePrompt) are embedded verbatim below;
section renderers whose files are not part of the repository snapshot are
modelled from the specification as fixed prose (their wording is out of scope,
spec section 1).

JavaScript effects are made explicit: functions that can throw return
`Except JsError`, the asynchronous registry operations of `McpHub` are modelled
as stored `Except` results (the value the corresponding `await` would produce),
and the ambient OS facts read by `getSystemInfoPrompt` are passed as an explicit
`SysEnv` record.
-/

set_option maxRecDepth 2048

set_option maxHeartbeats 2000000

/-- Errors thrown by the JavaScript runtime (exception messages). -/
abbrev JsError := String

/-- Modelled from the spec: the `String.prototype.toPosix` helper used by the
section renderers.  Per the path-normalization requirement it presents a
host-native path in canonical forward-slash form, replacing every backslash
separator by a forward slash.  (The helper itself is defined outside the
repository snapshot.) -/
def String.toPosix (s : String) : String :=
  String.mk (s.data.map fun c => if c = '\\' then '/' else c)

/-- JavaScript `Array.prototype.join(sep)` on a list of strings. -/
def joinWith (sep : String) : List String → String
  | [] => ""
  | [x] => x
  | x :: y :: xs => x ++ sep ++ joinWith sep (y :: xs)

/-- JavaScript `arr.splice(n, 0, a)`: insert `a` at index `n`. -/
def spliceInsert (n : Nat) (a : α) (l : List α) : List α :=
  l.take n ++ a :: l.drop n

/-- Membership test for a backslash character in a rendered string. -/
def hasBS (s : String) : Bool :=
  s.data.any fun c => c = '\\'

/-- Prefix test on character lists (needle, haystack). -/
def startsWithChars : List Char → List Char → Bool
  | [], _ => true
  | _ :: _, [] => false
  | a :: as, b :: bs => a == b && startsWithChars as bs

/-- Substring test used to state "the document contains ..." properties. -/
def listContainsChars (needle : List Char) : List Char → Bool
  | [] => startsWithChars needle []
  | c :: cs => startsWithChars needle (c :: cs) || listContainsChars needle cs

/-- Substring test on strings: `strContains hay needle` is true when `needle`
occurs contiguously in `hay`. -/
def strContains (hay needle : String) : Bool :=
  listContainsChars needle.data hay.data

/-- One tool descriptor exposed by an MCP server (name and human description). -/
structure McpTool where
  name : String
  description : String
deriving DecidableEq, Repr

/-- Result of `JSON.parse` on a server configuration descriptor: the two fields
the renderers read (`command`, and the optional `args` array). -/
structure McpConfig where
  command : String
  args : Option (List String)
deriving DecidableEq, Repr

/-- One registry entry as returned by `McpHub.getServers()`: name, raw JSON
configuration descriptor, connection status string (`"connected"`,
`"connecting"` or `"failed"`), and the optionally-present tool list. -/
structure McpServer where
  name : String
  config : String
  status : String
  tools : Option (List McpTool)
deriving DecidableEq, Repr

/-- The registry client (`McpHub`) as observed by the assembly engine: the
results of `getMode()`, `getServers()`, and of awaiting the two asynchronous
path lookups `getMcpServersPath()` / `getMcpSettingsFilePath()` (an `Except`
error is a rejected promise).  The `generation` field stands for the hub's
internal connection-lifecycle state, which the renderers never read. -/
structure McpHub where
  mode : String
  servers : List McpServer
  mcpServersPath : Except JsError String
  mcpSettingsFilePath : Except JsError String
  generation : Nat
deriving Repr

/-- Browser viewport dimensions (shared/BrowserSettings, outside the snapshot;
modelled from the spec: "viewport dimensions when applicable"). -/
structure Viewport where
  width : Nat
  height : Nat
deriving DecidableEq, Repr

/-- Browser settings passed to the assembly engine. -/
structure BrowserSettings where
  viewport : Viewport
deriving DecidableEq, Repr

/-- Ambient OS facts read by `getSystemInfoPrompt` through the environment
collaborators `osName()`, `getShell()`, `os.homedir()` (spec section 6:
synchronous, never failing). -/
structure SysEnv where
  osName : String
  shell : String
  homedir : String
deriving DecidableEq, Repr

/-- Consume an expected literal character prefix; `none` on mismatch. -/
def dropChars : List Char → List Char → Option (List Char)
  | [], s => some s
  | _ :: _, [] => none
  | p :: ps, c :: cs => if p = c then dropChars ps cs else none

/-- Read the body of a JSON string literal up to the closing quote.  Escape
sequences and embedded quotes are outside the modelled grammar. -/
def takeStringChars : List Char → Option (String × List Char)
  | [] => none
  | c :: cs =>
    if c = '"' then some ("", cs)
    else if c = '\\' then none
    else (takeStringChars cs).map fun p => (String.mk (c :: p.1.data), p.2)

/-- Read the items of a nonempty JSON string array after the opening bracket. -/
def parseArgsAux : Nat → List Char → Option (List String × List Char)
  | 0, _ => none
  | fuel + 1, cs =>
    match cs with
    | '"' :: cs1 =>
      match takeStringChars cs1 with
      | none => none
      | some (s, rest) =>
        match rest with
        | ']' :: cs2 => some ([s], cs2)
        | ',' :: cs2 =>
          match parseArgsAux fuel cs2 with
          | none => none
          | some (ss, cs3) => some (s :: ss, cs3)
        | _ => none
    | _ => none

/-- Read a JSON string array after the opening bracket. -/
def parseArgs : List Char → Option (List String × List Char)
  | ']' :: cs => some ([], cs)
  | cs => parseArgsAux cs.length cs

/-- Model of the JavaScript builtin `JSON.parse` applied to a server
configuration descriptor, restricted to the shape the renderers consume:
an object with a string `command` field and an optional `args` string array
(no whitespace, no escape sequences).  A string outside this grammar fails to
parse (`none`), standing for the `SyntaxError` that `JSON.parse` throws. -/
def parseJsonConfig (s : String) : Option McpConfig :=
  match dropChars ("\x7b\"command\":\"").data s.data with
  | none => none
  | some cs =>
    match takeStringChars cs with
    | none => none
    | some (cmd, rest) =>
      match rest with
      | ['\x7d'] => some ⟨cmd, none⟩
      | ',' :: rest2 =>
        match dropChars ("\"args\":[").data rest2 with
        | none => none
        | some rest3 =>
          match parseArgs rest3 with
          | none => none
          | some (args, rest4) =>
            match rest4 with
            | ['\x7d'] => some ⟨cmd, some args⟩
            | _ => none
      | _ => none

example : parseJsonConfig "\x7b\"command\":\"node\"\x7d" = some ⟨"node", none⟩ := by decide

example : parseJsonConfig "\x7b\"command\":\"node\",\"args\":[\"a.js\",\"-v\"]\x7d" =
    some ⟨"node", some ["a.js", "-v"]⟩ := by decide

example : parseJsonConfig "oops" = none := by decide

example : parseJsonConfig "" = none := by decide

/-- Map with a callback that can throw, as JavaScript `Array.prototype.map`
behaves when the callback raises: the first exception aborts the whole map. -/
def mapExcept (f : α → Except ε β) : List α → Except ε (List β)
  | [] => .ok []
  | x :: xs => do
    let y ← f x
    let ys ← mapExcept f xs
    return y :: ys

/-- Modelled from the spec: `getBasePrompt` (foundation/base, not in the
repository snapshot) — fixed prose describing the agent role; wording out of
scope (spec section 1). -/
def getBasePrompt : String :=
  "[base prompt: agent role and overall operating contract]"

/-- Modelled from the spec: `getToolUsePrompt` (tools/tool_use, not in the
snapshot) — fixed prose describing the tool-use protocol. -/
def getToolUsePrompt : String :=
  "[tool use protocol section]"

/-- Modelled from the spec: `getExecuteCommandPrompt` (tools/execute_command,
not in the snapshot) — the execute-command tool contract.  Like the sibling
renderer `getCoreToolsPrompt` present in the snapshot, it embeds the working
directory in canonical forward-slash form. -/
def getExecuteCommandPrompt (cwd : String) : String :=
  "[execute_command tool section; working directory: " ++ cwd.toPosix ++ "]"

/-- Modelled from the spec: `getListCodeDefinitionNamesPrompt` (not in the
snapshot) — fixed tool contract parameterised by the working directory. -/
def getListCodeDefinitionNamesPrompt (cwd : String) : String :=
  "[list_code_definition_names tool section; working directory: " ++ cwd.toPosix ++ "]"

/-- Modelled from the spec: `getListFilesPrompt` (not in the snapshot). -/
def getListFilesPrompt (cwd : String) : String :=
  "[list_files tool section; working directory: " ++ cwd.toPosix ++ "]"

/-- Modelled from the spec: `getReadFilePrompt` (not in the snapshot). -/
def getReadFilePrompt (cwd : String) : String :=
  "[read_file tool section; working directory: " ++ cwd.toPosix ++ "]"

/-- Modelled from the spec: `getReplaceInFilePrompt` (not in the snapshot). -/
def getReplaceInFilePrompt (cwd : String) : String :=
  "[replace_in_file tool section; working directory: " ++ cwd.toPosix ++ "]"

/-- Modelled from the spec: `getSearchFilesPrompt` (not in the snapshot). -/
def getSearchFilesPrompt (cwd : String) : String :=
  "[search_files tool section; working directory: " ++ cwd.toPosix ++ "]"

/-- Modelled from the spec: `getWriteToFilePrompt` (not in the snapshot). -/
def getWriteToFilePrompt (cwd : String) : String :=
  "[write_to_file tool section; working directory: " ++ cwd.toPosix ++ "]"

/-- Modelled from the spec: `getAskFollowupQuestionPrompt` (not in the
snapshot) — fixed prose. -/
def getAskFollowupQuestionPrompt : String :=
  "[ask_followup_question tool section]"

/-- Modelled from the spec: `getAttemptCompletionPrompt` (not in the
snapshot) — fixed prose. -/
def getAttemptCompletionPrompt : String :=
  "[attempt_completion tool section]"

/-- Modelled from the spec: `getUseMcpToolPrompt` (not in the snapshot). -/
def getUseMcpToolPrompt : String :=
  "[use_mcp_tool tool section]"

/-- Modelled from the spec: `getAccessMcpResourcePrompt` (not in the
snapshot). -/
def getAccessMcpResourcePrompt : String :=
  "[access_mcp_resource tool section]"

/-- Modelled from the spec: `getModesPrompt` (core_prompts/modes, not in the
snapshot) — fixed prose. -/
def getModesPrompt : String :=
  "[act mode versus plan mode section]"

/-- Modelled from the spec: `getCapabilitiesPrompt` (core_prompts/capabilities,
not in the snapshot).  Per the capability-gate contract it receives the
automation flag as a parameter variant and describes the interactive-automation
capability only when that flag is true; the registry hub parameter is accepted
but its lifecycle state is not read. -/
def getCapabilitiesPrompt (cwd : String) (supportsComputerUse : Bool)
    (_mcpHub : McpHub) : String :=
  "[capabilities section; working directory: " ++ cwd.toPosix ++ "]"
    ++ (if supportsComputerUse then "\n[browser automation capability description]" else "")

/-- Modelled from the spec: `getEditingPrompt` (core_prompts/editing, not in
the snapshot) — fixed prose on file-editing rules. -/
def getEditingPrompt : String :=
  "[editing rules section]"

/-- Modelled from the spec: `getObjectivePrompt` (core_prompts/objective, not
in the snapshot) — fixed prose. -/
def getObjectivePrompt : String :=
  "[objective section]"

/-- Embedded from src/core/prompts/tools/modes/plan_mode_response.ts:
`getPlanModeResponsePrompt`. -/
def getPlanModeResponsePrompt : String :=
  "\n## plan_mode_response\nDescription: Respond to the user\x27s inquiry in an effort to plan a"
    ++ " solution to the user\x27s task. This tool should be used when you need to provide a"
    ++ " response to a question or statement from the user about how you plan to accomplish"
    ++ " the task. This tool is only available in PLAN MODE. The environment_details will"
    ++ " specify the current mode, if it is not PLAN MODE then you should not use this tool."
    ++ " Depending on the user\x27s message, you may ask questions to get clarification about"
    ++ " the user\x27s request, architect a solution to the task, and to brainstorm ideas with"
    ++ " the user.\nParameters:\n- response: (required) The response to provide to the user."
    ++ " Do not try to use tools in this parameter, this is simply a chat response.\nUsage:\n"
    ++ "<plan_mode_response>\n<response>Your response here</response>\n</plan_mode_response>\n"

/-- Embedded from src/core/prompts/core_prompts/system_info.ts:
`getSystemInfoPrompt`.  The ambient collaborators `osName()`, `getShell()` and
`os.homedir()` are supplied through the explicit `SysEnv` record. -/
def getSystemInfoPrompt (env : SysEnv) (cwd : String) : String :=
  "\n====\n\nSYSTEM INFORMATION\n\nOperating System: " ++ env.osName
    ++ "\nDefault Shell: " ++ env.shell
    ++ "\nHome Directory: " ++ env.homedir.toPosix
    ++ "\nCurrent Working Directory: " ++ cwd.toPosix ++ "\n"

/-- Embedded from the unnamed source file defining `getMcpServersPrompt`: the
inline `.map((server) => ...)` callback.  `JSON.parse(server.config)` throwing
on an invalid descriptor is the `.error` branch; the JavaScript coalescing in
`server.tools?.map(...).join("\n") || ""` and `config.args?.join(" ") || ""`
collapses to joining the optionally-present list (an absent list and an empty
join both yield the empty string). -/
def renderMcpServerEntry (server : McpServer) : Except JsError String :=
  match parseJsonConfig server.config with
  | none => .error "SyntaxError: Unexpected token in JSON"
  | some config =>
    let tools := joinWith "\n"
      ((server.tools.getD []).map fun tool => "- " ++ tool.name ++ ": " ++ tool.description)
    .ok ("## " ++ server.name ++ " (`" ++ config.command ++ " "
      ++ joinWith " " (config.args.getD []) ++ "`)\n\n### Available Tools\n" ++ tools)

/-- Embedded from the unnamed source file defining `getMcpServersPrompt`.
Returns the empty string when the MCP mode is `"off"`; otherwise renders the
connected servers (a thrown `JSON.parse` error propagates), substituting the
no-providers placeholder when the joined entry list is empty. -/
def getMcpServersPrompt (mcpHub : McpHub) : Except JsError String := do
  let mcpMode := mcpHub.mode
  if mcpMode = "off" then return ""
  let entries ← mapExcept renderMcpServerEntry
    (mcpHub.servers.filter fun server => server.status == "connected")
  let joined := joinWith "\n\n" entries
  let connectedServers :=
    if joined = "" then "(No MCP servers currently connected)" else joined
  return "\n====\n\nMCP SERVERS\n\nThe Model Context Protocol (MCP) enables communication"
    ++ " between the system and locally running MCP servers that provide additional tools"
    ++ " and resources to extend your capabilities.\n\n# Connected MCP Servers\n\n"
    ++ "When a server is connected, you can use the server\x27s tools via the `use_mcp_tool`"
    ++ " tool, and access the server\x27s resources via the `access_mcp_resource` tool.\n\n"
    ++ connectedServers
    ++ "\n\n- MCP operations should be used one at a time, similar to other tool usage."
    ++ " Wait for confirmation of success before proceeding with additional operations.\n"

/-- Conditional fragment of the RULES section present only when the automation
flag is set (generic browser tasks bullet). -/
def rulesBrowserTaskFragment : String :=
  "\n- The user may ask generic non-development tasks, such as \"what\x27s the latest news\" or \"look up the weather in San Diego\", in which case you might use the browser_action tool to complete the task if it makes sense to do so, rather than trying to create a website or using curl to answer the question."

/-- Conditional fragment of the RULES section present only when the automation
flag is set (wait-for-confirmation example sentence). -/
def rulesBrowserWaitFragment : String :=
  " For example, if testing a web app, you might use browser_action to launch the site, wait for confirmation and a screenshot, then proceed with further actions."

/-- Embedded from the unnamed source file defining `getRulesPrompt`: the RULES
section.  Two fragments are conditional on `supportsComputerUse`, exactly as in
the source template literal. -/
def getRulesPrompt (cwd : String) (supportsComputerUse : Bool) : String :=
  "\n====\n\nRULES\n\n- Your current working directory is: " ++ cwd.toPosix
    ++ "\n- You cannot `cd` into a different directory to complete a task. You are stuck"
    ++ " operating from \x27" ++ cwd.toPosix
    ++ "\x27, so be sure to pass in the correct \x27path\x27 parameter when using tools"
    ++ " that require a path."
    ++ "\n- Do not use the ~ character or $HOME to refer to the home directory."
    ++ "\n- Before using the execute_command tool, you must first think about the SYSTEM"
    ++ " INFORMATION context provided to understand the user\x27s environment and tailor"
    ++ " your commands to ensure they are compatible with their system. You must also"
    ++ " consider if the command you need to run should be executed in a specific"
    ++ " directory outside of the current working directory \x27" ++ cwd.toPosix
    ++ "\x27, and if so prepend with `cd`\x27ing into that directory && then executing"
    ++ " the command (as one command since you are stuck operating from \x27"
    ++ cwd.toPosix ++ "\x27)."
    ++ "\n- When using the search_files tool, craft your regex patterns carefully to"
    ++ " balance specificity and flexibility. Based on the user\x27s task you may use it"
    ++ " to find code patterns, TODO comments, function definitions, or any text-based"
    ++ " information across the project. The results include context, so analyze the"
    ++ " surrounding code to better understand the matches."
    ++ "\n- When creating a new project (such as an app, website, or any software"
    ++ " project), organize all new files within a dedicated project directory unless"
    ++ " the user specifies otherwise. Use appropriate file paths when creating files,"
    ++ " as the write_to_file tool will automatically create any necessary directories."
    ++ "\n- Be sure to consider the type of project (e.g. Python, JavaScript, web"
    ++ " application) when determining the appropriate structure and files to include."
    ++ " Also consider what files may be most relevant to accomplishing the task."
    ++ "\n- When making changes to code, always consider the context in which the code"
    ++ " is being used. Ensure that your changes are compatible with the existing"
    ++ " codebase and that they follow the project\x27s coding standards and best"
    ++ " practices."
    ++ "\n- When you want to modify a file, use the replace_in_file or write_to_file"
    ++ " tool directly with the desired changes. You do not need to display the changes"
    ++ " before using the tool."
    ++ "\n- Do not ask for more information than necessary. Use the tools provided to"
    ++ " accomplish the user\x27s request efficiently and effectively. When you\x27ve"
    ++ " completed your task, you must use the attempt_completion tool to present the"
    ++ " result to the user."
    ++ "\n- You are only allowed to ask the user questions using the"
    ++ " ask_followup_question tool. Use this tool only when you need additional details"
    ++ " to complete a task, and be sure to use a clear and concise question that will"
    ++ " help you move forward with the task."
    ++ "\n- When executing commands, if you don\x27t see the expected output, assume the"
    ++ " terminal executed the command successfully and proceed with the task. If you"
    ++ " absolutely need to see the actual terminal output, use the"
    ++ " ask_followup_question tool to request the user to copy and paste it back to"
    ++ " you."
    ++ "\n- The user may provide a file\x27s contents directly in their message, in which"
    ++ " case you shouldn\x27t use the read_file tool to get the file contents again"
    ++ " since you already have it."
    ++ "\n- Your goal is to try to accomplish the user\x27s task, NOT engage in a back"
    ++ " and forth conversation."
    ++ (if supportsComputerUse then rulesBrowserTaskFragment else "")
    ++ "\n- NEVER end attempt_completion result with a question or request to engage in"
    ++ " further conversation! Formulate the end of your result in a way that is final"
    ++ " and does not require further input from the user."
    ++ "\n- You are STRICTLY FORBIDDEN from starting your messages with \"Great\","
    ++ " \"Certainly\", \"Okay\", \"Sure\". You should NOT be conversational in your"
    ++ " responses, but rather direct and to the point."
    ++ "\n- When presented with images, utilize your vision capabilities to thoroughly"
    ++ " examine them and extract meaningful information."
    ++ "\n- At the end of each user message, you will automatically receive"
    ++ " environment_details. This information is not written by the user themselves,"
    ++ " but is auto-generated to provide potentially relevant context about the project"
    ++ " structure and environment."
    ++ "\n- Before executing commands, check the \"Actively Running Terminals\" section"
    ++ " in environment_details. If present, consider how these active processes might"
    ++ " impact your task."
    ++ "\n- When using the replace_in_file tool, you must include complete lines in your"
    ++ " SEARCH blocks, not partial lines."
    ++ "\n- When using the replace_in_file tool, if you use multiple SEARCH/REPLACE"
    ++ " blocks, list them in the order they appear in the file."
    ++ "\n- It is critical you wait for the user\x27s response after each tool use, in"
    ++ " order to confirm the success of the tool use."
    ++ (if supportsComputerUse then rulesBrowserWaitFragment else "")
    ++ "\n"

/-- Embedded from src/core/prompts/tools/browser_action.ts:
`getBrowserActionPrompt`.  Every line of the source template carries a
three-space indent; the viewport dimensions are interpolated twice. -/
def getBrowserActionPrompt (browserSettings : BrowserSettings) : String :=
  "\n   ## browser_action\n   Description: Request to interact with a Puppeteer-controlled"
    ++ " browser. Every action, except `close`, will be responded to with a screenshot of"
    ++ " the browser\x27s current state, along with any new console logs. You may only"
    ++ " perform one browser action per message, and wait for the user\x27s response"
    ++ " including a screenshot and logs to determine the next action.\n   - The sequence"
    ++ " of actions **must always start with** launching the browser at a URL, and **must"
    ++ " always end with** closing the browser. If you need to visit a new URL that is not"
    ++ " possible to navigate to from the current webpage, you must first close the"
    ++ " browser, then launch again at the new URL.\n   - While the browser is active,"
    ++ " only the `browser_action` tool can be used. No other tools should be called"
    ++ " during this time. You may proceed to use other tools only after closing the"
    ++ " browser.\n   - The browser window has a resolution of "
    ++ toString browserSettings.viewport.width ++ "x"
    ++ toString browserSettings.viewport.height
    ++ " pixels. When performing any click actions, ensure the coordinates are within"
    ++ " this resolution range.\n   - Before clicking on any elements such as icons,"
    ++ " links, or buttons, you must consult the provided screenshot of the page to"
    ++ " determine the coordinates of the element. The click should be targeted at the"
    ++ " **center of the element**, not on its edges.\n   Parameters:\n   - action:"
    ++ " (required) The action to perform. The available actions are:\n       * launch:"
    ++ " Launch a new Puppeteer-controlled browser instance at the specified URL. This"
    ++ " **must always be the first action**.\n           - Use with the `url` parameter"
    ++ " to provide the URL.\n           - Ensure the URL is valid and includes the"
    ++ " appropriate protocol (e.g. http://localhost:3000/page, file:///path/to/file.html,"
    ++ " etc.)\n       * click: Click at a specific x,y coordinate.\n           - Use"
    ++ " with the `coordinate` parameter to specify the location.\n           - Always"
    ++ " click in the center of an element (icon, button, link, etc.) based on"
    ++ " coordinates derived from a screenshot.\n       * type: Type a string of text on"
    ++ " the keyboard. You might use this after clicking on a text field to input"
    ++ " text.\n           - Use with the `text` parameter to provide the string to"
    ++ " type.\n       * scroll_down: Scroll down the page by one page height.\n      "
    ++ " * scroll_up: Scroll up the page by one page height.\n       * close: Close the"
    ++ " Puppeteer-controlled browser instance. This **must always be the final browser"
    ++ " action**.\n   - url: (optional) Use this for providing the URL for the `launch`"
    ++ " action.\n   - coordinate: (optional) The X and Y coordinates for the `click`"
    ++ " action. Coordinates should be within the "
    ++ toString browserSettings.viewport.width ++ "x"
    ++ toString browserSettings.viewport.height
    ++ " resolution.\n   - text: (optional) Use this for providing the text for the"
    ++ " `type` action.\n   Usage:\n   <browser_action>\n   <action>Action to perform"
    ++ " (e.g., launch, click, type, scroll_down, scroll_up, close)</action>\n   <url>URL"
    ++ " to launch the browser at (optional)</url>\n   <coordinate>x,y coordinates"
    ++ " (optional)</coordinate>\n   <text>Text to type (optional)</text>\n"
    ++ "   </browser_action>\n   "

/-- Embedded from src/core/prompts/mcp/creation.ts: `getMcpCreationPrompt`.
The two registry path lookups are awaited first (a rejected promise is the
`Except` error and propagates, since the source has no try/catch); the
connected-server name list falls back to the none-running placeholder exactly
when the joined name list is empty.  Braces and apostrophes of the embedded
example code appear as escape sequences. -/
def getMcpCreationPrompt (mcpHub : McpHub) : Except JsError String := do
  let mcpServersPath ← mcpHub.mcpServersPath
  let mcpSettingsFilePath ← mcpHub.mcpSettingsFilePath
  let joined := joinWith ", "
    ((mcpHub.servers.filter fun server => server.status == "connected").map
      fun server => server.name)
  let connectedServers := if joined = "" then "(None running currently)" else joined
  return "\n## Creating an MCP Server\n\nThe user may ask you something along the lines of"
    ++ " \"add a tool\" that does some function, in other words to create an MCP server"
    ++ " that provides tools and resources that may connect to external APIs for example."
    ++ " You have the ability to create an MCP server and add it to a configuration file"
    ++ " that will then expose the tools and resources for you to use with `use_mcp_tool`"
    ++ " and `access_mcp_resource`.\n\nWhen creating MCP servers, it\x27s important to"
    ++ " understand that they operate in a non-interactive environment. All credentials"
    ++ " and authentication tokens must be provided upfront through environment variables"
    ++ " in the MCP settings configuration.\n\nUnless the user specifies otherwise, new"
    ++ " MCP servers should be created in: " ++ mcpServersPath
    ++ "\n\n### Example MCP Server\n\nFor example, if the user wanted to give you the"
    ++ " ability to retrieve weather information, you could create an MCP server that"
    ++ " uses the OpenWeather API:\n\n1. Use the `create-typescript-server` tool to"
    ++ " bootstrap a new project:\n\n```bash\ncd " ++ mcpServersPath
    ++ "\nnpx @modelcontextprotocol/create-server weather-server\ncd weather-server\n"
    ++ "npm install axios\n```\n\n2. Replace `src/index.ts` with:\n\n```typescript\n"
    ++ "#!/usr/bin/env node\nimport \x7b Server \x7d from"
    ++ " \x27@modelcontextprotocol/sdk/server/index.js\x27;\nimport"
    ++ " \x7b StdioServerTransport \x7d from"
    ++ " \x27@modelcontextprotocol/sdk/server/stdio.js\x27;\nimport"
    ++ " \x7b CallToolRequestSchema, ErrorCode, ListToolsRequestSchema, McpError \x7d"
    ++ " from \x27@modelcontextprotocol/sdk/types.js\x27;\nimport axios from"
    ++ " \x27axios\x27;\n\nconst API_KEY = process.env.OPENWEATHER_API_KEY;\nif"
    ++ " (!API_KEY) throw new Error(\x27OPENWEATHER_API_KEY required\x27);\n\nclass"
    ++ " WeatherServer \x7b\n    private server: Server;\n    private axiosInstance;\n\n"
    ++ "    constructor() \x7b\n        this.server = new Server(\x7b name:"
    ++ " \x27weather-server\x27, version: \x270.1.0\x27 \x7d, \x7b capabilities:"
    ++ " \x7b tools: \x7b\x7d \x7d \x7d);\n        this.axiosInstance ="
    ++ " axios.create(\x7b baseURL: \x27http://api.openweathermap.org/data/2.5\x27,"
    ++ " params: \x7b appid: API_KEY, units: \x27metric\x27 \x7d \x7d);\n       "
    ++ " this.setupToolHandlers();\n    \x7d\n\n    private setupToolHandlers()"
    ++ " \x7b\n        this.server.setRequestHandler(ListToolsRequestSchema, async ()"
    ++ " => (\x7b\n            tools: [\x7b name: \x27get_forecast\x27, description:"
    ++ " \x27Get weather forecast\x27, inputSchema: \x7b type: \x27object\x27,"
    ++ " properties: \x7b city: \x7b type: \x27string\x27 \x7d \x7d, required:"
    ++ " [\x27city\x27] \x7d \x7d]\n        \x7d));\n       "
    ++ " this.server.setRequestHandler(CallToolRequestSchema, async (request) =>"
    ++ " \x7b\n            if (request.params.name === \x27get_forecast\x27) \x7b\n    "
    ++ "            const city = request.params.arguments.city;\n               "
    ++ " const response = await this.axiosInstance.get(\x27weather\x27, \x7b params:"
    ++ " \x7b q: city \x7d \x7d);\n                return \x7b content: [\x7b type:"
    ++ " \x27text\x27, text: JSON.stringify(response.data, null, 2) \x7d] \x7d;\n      "
    ++ "      \x7d\n            throw new McpError(ErrorCode.MethodNotFound, `Unknown"
    ++ " tool: $\x7brequest.params.name\x7d`);\n        \x7d);\n    \x7d\n\n    async"
    ++ " run() \x7b\n        const transport = new StdioServerTransport();\n       "
    ++ " await this.server.connect(transport);\n        console.error(\x27Weather MCP"
    ++ " server running\x27);\n    \x7d\n\x7d\n\nconst server = new WeatherServer();\n"
    ++ "server.run().catch(console.error);\n```\n\n3. Build the server:\n\n```bash\n"
    ++ "npm run build\n```\n\n4. Add to the MCP settings file at \x27"
    ++ mcpSettingsFilePath ++ "\x27:\n\n```json\n\x7b\n    \"mcpServers\": \x7b\n      "
    ++ "  \"weather\": \x7b\n            \"command\": \"node\",\n            \"args\":"
    ++ " [\"" ++ mcpServersPath ++ "/weather-server/build/index.js\"],\n           "
    ++ " \"env\": \x7b \"OPENWEATHER_API_KEY\": \"user-provided-api-key\" \x7d,\n      "
    ++ "      \"disabled\": false,\n            \"autoApprove\": []\n        \x7d\n   "
    ++ " \x7d\n\x7d\n```\n\n## Editing MCP Servers\n\nThe user may ask to add tools or"
    ++ " resources to an existing MCP server (e.g., " ++ connectedServers
    ++ "). This is possible if you can locate the repository via server"
    ++ " arguments.\n\n# MCP Servers Are Not Always Necessary\n\nOnly implement MCP"
    ++ " servers when explicitly requested (e.g., \"add a tool that...\").\n"

/-- Embedded from src/core/prompts/index.ts: the assembly engine
`SYSTEM_PROMPT`.  The section array is built in the fixed base order (the two
registry-dependent renderers are the only fallible steps, sequenced in their
source evaluation order); when `supportsComputerUse` is set the browser-action
section is spliced in at index 3; the result joins the sections with a
double-newline separator. -/
def SYSTEM_PROMPT (env : SysEnv) (cwd : String) (supportsComputerUse : Bool)
    (mcpHub : McpHub) (browserSettings : BrowserSettings) : Except JsError String := do
  let capabilitiesText := getCapabilitiesPrompt cwd supportsComputerUse mcpHub
  let mcpServersText ← getMcpServersPrompt mcpHub
  let mcpCreationText ← getMcpCreationPrompt mcpHub
  let sections : List String :=
    [getBasePrompt,
     getToolUsePrompt,
     getExecuteCommandPrompt cwd,
     getListCodeDefinitionNamesPrompt cwd,
     getListFilesPrompt cwd,
     getReadFilePrompt cwd,
     getReplaceInFilePrompt cwd,
     getSearchFilesPrompt cwd,
     getWriteToFilePrompt cwd,
     getAskFollowupQuestionPrompt,
     getAttemptCompletionPrompt,
     getPlanModeResponsePrompt,
     getUseMcpToolPrompt,
     getAccessMcpResourcePrompt,
     getModesPrompt,
     capabilitiesText,
     getEditingPrompt,
     mcpServersText,
     getSystemInfoPrompt env cwd,
     getObjectivePrompt,
     getRulesPrompt cwd supportsComputerUse,
     mcpCreationText]
  let sections :=
    if supportsComputerUse then
      spliceInsert 3 (getBrowserActionPrompt browserSettings) sections
    else sections
  return joinWith "\n\n" sections

/-- Identifiers for the sections of the assembled document, used to state
ordering properties about the assembly. -/
inductive SectionId where
  | base | toolUse | executeCommand | listCodeDefinitionNames | listFiles
  | readFile | replaceInFile | searchFiles | writeToFile | askFollowupQuestion
  | attemptCompletion | planModeResponse | useMcpTool | accessMcpResource
  | modes | capabilities | editing | mcpServers | systemInfo | objective
  | rules | mcpCreation | browserAction
deriving DecidableEq, Repr

/-- Capability-independent base order of the mandatory sections, as the section
array literal of `SYSTEM_PROMPT` lists them. -/
def baseSectionIds : List SectionId :=
  [.base, .toolUse, .executeCommand, .listCodeDefinitionNames, .listFiles,
   .readFile, .replaceInFile, .searchFiles, .writeToFile, .askFollowupQuestion,
   .attemptCompletion, .planModeResponse, .useMcpTool, .accessMcpResource,
   .modes, .capabilities, .editing, .mcpServers, .systemInfo, .objective,
   .rules, .mcpCreation]

/-- Section order produced by one assembly invocation: the base order, with the
browser-action section spliced in at index 3 exactly when the automation flag
is set. -/
def sectionIds (supportsComputerUse : Bool) : List SectionId :=
  if supportsComputerUse then spliceInsert 3 .browserAction baseSectionIds
  else baseSectionIds

/-- Renderer of a single identified section, with the same parameters as the
assembly call. -/
def renderSection (env : SysEnv) (cwd : String) (supportsComputerUse : Bool)
    (hub : McpHub) (bs : BrowserSettings) : SectionId → Except JsError String
  | .base => .ok getBasePrompt
  | .toolUse => .ok getToolUsePrompt
  | .executeCommand => .ok (getExecuteCommandPrompt cwd)
  | .listCodeDefinitionNames => .ok (getListCodeDefinitionNamesPrompt cwd)
  | .listFiles => .ok (getListFilesPrompt cwd)
  | .readFile => .ok (getReadFilePrompt cwd)
  | .replaceInFile => .ok (getReplaceInFilePrompt cwd)
  | .searchFiles => .ok (getSearchFilesPrompt cwd)
  | .writeToFile => .ok (getWriteToFilePrompt cwd)
  | .askFollowupQuestion => .ok getAskFollowupQuestionPrompt
  | .attemptCompletion => .ok getAttemptCompletionPrompt
  | .planModeResponse => .ok getPlanModeResponsePrompt
  | .useMcpTool => .ok getUseMcpToolPrompt
  | .accessMcpResource => .ok getAccessMcpResourcePrompt
  | .modes => .ok getModesPrompt
  | .capabilities => .ok (getCapabilitiesPrompt cwd supportsComputerUse hub)
  | .editing => .ok getEditingPrompt
  | .mcpServers => getMcpServersPrompt hub
  | .systemInfo => .ok (getSystemInfoPrompt env cwd)
  | .objective => .ok getObjectivePrompt
  | .rules => .ok (getRulesPrompt cwd supportsComputerUse)
  | .mcpCreation => getMcpCreationPrompt hub
  | .browserAction => .ok (getBrowserActionPrompt bs)

/-- Render an ordered list of identified sections, stopping at the first
thrown error. -/
def renderAll (f : SectionId → Except JsError String) :
    List SectionId → Except JsError (List String)
  | [] => .ok []
  | i :: is =>
    match f i with
    | .error e => .error e
    | .ok s =>
      match renderAll f is with
      | .error e => .error e
      | .ok rest => .ok (s :: rest)

/-- Index of the first occurrence of an element in a list (length when
absent). -/
def idxIn [DecidableEq α] (a : α) : List α → Nat
  | [] => 0
  | x :: xs => if x = a then 0 else idxIn a xs + 1

/-- Dynamic-typing view of one cwd-consuming renderer: JavaScript invoked with
the working-directory argument missing makes the renderer throw a `TypeError`
at its first `cwd.toPosix()` access instead of returning text. -/
def withCwd (cwdOpt : Option String) (f : String → String) : Except JsError String :=
  match cwdOpt with
  | none => .error "TypeError: Cannot read properties of undefined (reading \x27toPosix\x27)"
  | some c => .ok (f c)

/-- Dynamic-typing view of the section array literal of `SYSTEM_PROMPT`: the
outcome of every element expression, in source order, when the working
directory may be missing. -/
def sectionResultsDyn (env : SysEnv) (cwdOpt : Option String)
    (supportsComputerUse : Bool) (hub : McpHub) : List (Except JsError String) :=
  [.ok getBasePrompt,
   .ok getToolUsePrompt,
   withCwd cwdOpt getExecuteCommandPrompt,
   withCwd cwdOpt getListCodeDefinitionNamesPrompt,
   withCwd cwdOpt getListFilesPrompt,
   withCwd cwdOpt getReadFilePrompt,
   withCwd cwdOpt getReplaceInFilePrompt,
   withCwd cwdOpt getSearchFilesPrompt,
   withCwd cwdOpt getWriteToFilePrompt,
   .ok getAskFollowupQuestionPrompt,
   .ok getAttemptCompletionPrompt,
   .ok getPlanModeResponsePrompt,
   .ok getUseMcpToolPrompt,
   .ok getAccessMcpResourcePrompt,
   .ok getModesPrompt,
   withCwd cwdOpt (fun c => getCapabilitiesPrompt c supportsComputerUse hub),
   .ok getEditingPrompt,
   getMcpServersPrompt hub,
   withCwd cwdOpt (getSystemInfoPrompt env),
   .ok getObjectivePrompt,
   withCwd cwdOpt (fun c => getRulesPrompt c supportsComputerUse),
   getMcpCreationPrompt hub]

/-- Evaluate an array literal whose element expressions may throw: the value of
the first throwing element aborts the construction, tagged with its index (the
number of elements that had already been evaluated successfully). -/
def buildArray : List (Except JsError String) → Except (Nat × JsError) (List String)
  | [] => .ok []
  | x :: rest =>
    match x with
    | .error e => .error (0, e)
    | .ok s =>
      match buildArray rest with
      | .error (n, e) => .error (n + 1, e)
      | .ok l => .ok (s :: l)

/-- Dynamic-typing view of the whole assembly call when the working directory
may be missing: build the section array, splice, join. -/
def assembleDyn (env : SysEnv) (cwdOpt : Option String) (supportsComputerUse : Bool)
    (hub : McpHub) (bs : BrowserSettings) : Except (Nat × JsError) String :=
  (buildArray (sectionResultsDyn env cwdOpt supportsComputerUse hub)).map fun sections =>
    joinWith "\n\n"
      (if supportsComputerUse then
        spliceInsert 3 (getBrowserActionPrompt bs) sections
      else sections)

/-- Fixture: ambient OS facts used in concrete witnesses. -/
def envC : SysEnv := ⟨"Linux 6.8", "/bin/bash", "/home/user"⟩

/-- Fixture: browser settings used in concrete witnesses. -/
def bsC : BrowserSettings := ⟨⟨900, 600⟩⟩

/-- Fixture: a well-formed configuration descriptor. -/
def cfgNode : String := "\x7b\"command\":\"node\"\x7d"

/-- Fixture: registry with one connected server "alpha" exposing the tool
"fetch". -/
def hubAlpha : McpHub :=
  ⟨"full", [⟨"alpha", cfgNode, "connected", some [⟨"fetch", "retrieves a URL"⟩]⟩],
   .ok "/home/user/mcp", .ok "/home/user/settings.json", 0⟩

/-- Fixture: registry with MCP mode off. -/
def hubOff : McpHub :=
  ⟨"off", [], .ok "/home/user/mcp", .ok "/home/user/settings.json", 0⟩

/-- Fixture: registry enabled with no servers. -/
def hubEmptyOn : McpHub :=
  ⟨"full", [], .ok "/home/user/mcp", .ok "/home/user/settings.json", 0⟩

/-- Fixture: registry whose install-path lookup fails (registry unreachable). -/
def hubBadPath : McpHub :=
  ⟨"full", [], .error "RegistryUnavailable", .ok "/home/user/settings.json", 0⟩

/-- Fixture: registry whose path lookups return host-native Windows paths. -/
def hubBackslash : McpHub :=
  ⟨"full", [], .ok "C:\\Users\\me\\Documents\\Cline\\MCP",
   .ok "C:\\Users\\me\\settings\\cline_mcp_settings.json", 0⟩

/-- Fixture: MCP mode off while a connected server carries an unparsable
configuration descriptor. -/
def hubOffBadCfg : McpHub :=
  ⟨"off", [⟨"bad", "oops", "connected", none⟩], .ok "/m", .ok "/s", 0⟩

/-- Fixture: MCP mode on with a connected server whose configuration descriptor
is not valid JSON. -/
def hubBadCfg : McpHub :=
  ⟨"full", [⟨"bad", "oops", "connected", none⟩], .ok "/m", .ok "/s", 0⟩

example : (SYSTEM_PROMPT envC "/w" false hubAlpha bsC).isOk = true := by decide

example : (SYSTEM_PROMPT envC "/w" true hubAlpha bsC).isOk = true := by decide

example : (SYSTEM_PROMPT envC "/w" false hubBadPath bsC).isOk = false := by decide

/-- The join of a list with a nonempty tail unfolds one separator step. -/
theorem joinWith_cons (sep x : String) (xs : List String) (h : xs ≠ []) :
    joinWith sep (x :: xs) = x ++ sep ++ joinWith sep xs := by
  cases xs with
  | nil => exact absurd rfl h
  | cons y ys => rfl

/-- Joining a list that carries an empty string between two nonempty parts
produces two adjacent separators (the doubled four-newline block). -/
theorem joinWith_split_empty (l1 l2 : List String) (h1 : l1 ≠ []) (h2 : l2 ≠ []) :
    joinWith "\n\n" (l1 ++ "" :: l2) =
      joinWith "\n\n" l1 ++ "\n\n\n\n" ++ joinWith "\n\n" l2 := by
  induction l1 with
  | nil => exact absurd rfl h1
  | cons x xs ih =>
    cases xs with
    | nil =>
      apply String.ext
      simp [joinWith_cons _ _ _ h2, joinWith, String.data_append]
    | cons y ys =>
      have hxs : y :: ys ≠ [] := by simp
      have hmid : (y :: ys) ++ "" :: l2 ≠ [] := by simp
      apply String.ext
      rw [show (x :: y :: ys) ++ "" :: l2 = x :: ((y :: ys) ++ "" :: l2) from rfl,
        joinWith_cons _ _ _ hmid, ih hxs, joinWith_cons _ _ _ hxs]
      simp [String.data_append]

/-- Mapping a throwing callback over a list that contains a failing element
aborts with an error. -/
theorem mapExcept_error_of_mem {f : α → Except ε β} {l : List α} {x : α}
    (hx : x ∈ l) (hf : ∃ e, f x = .error e) :
    ∃ e, mapExcept f l = .error e := by
  induction l with
  | nil => cases hx
  | cons y ys ih =>
    cases hy : f y with
    | error e => exact ⟨e, by simp [mapExcept, hy, Except.bind, bind]⟩
    | ok b =>
      rcases List.mem_cons.mp hx with h | h
      · subst h
        rcases hf with ⟨e, he⟩
        rw [hy] at he
        cases he
      · rcases ih h with ⟨e, he⟩
        exact ⟨e, by simp [mapExcept, hy, he, Except.bind, bind]⟩

/-- Path canonicalization of the modelled `toPosix`: its output never contains
a backslash. -/
theorem toPosix_no_backslash (s : String) : '\\' ∉ (String.toPosix s).data := by
  intro h
  simp only [String.toPosix, List.mem_map] at h
  rcases h with ⟨c, _, hc⟩
  by_cases hcc : c = '\\'
  · rw [if_pos hcc] at hc
    exact absurd hc (by decide)
  · rw [if_neg hcc] at hc
    exact hcc hc

/-- Agreement of the assembly call with the identified-section rendering: the
document is the separator-join of the sections rendered in `sectionIds` order. -/
theorem systemPrompt_renderAll (env : SysEnv) (cwd : String) (flag : Bool)
    (hub : McpHub) (bs : BrowserSettings) :
    SYSTEM_PROMPT env cwd flag hub bs =
      (renderAll (renderSection env cwd flag hub bs) (sectionIds flag)).map
        (joinWith "\n\n") := by
  cases flag <;>
    cases hs : getMcpServersPrompt hub <;>
      cases hc : getMcpCreationPrompt hub <;>
        simp [SYSTEM_PROMPT, sectionIds, baseSectionIds, spliceInsert, renderAll,
          renderSection, hs, hc, Except.map, Except.bind, bind, pure, Except.pure]


/-- C1. For every capability-flag combination the assembled document is the
separator-join of the sections in `sectionIds` order; the browser-action
(interactive-automation) section sits immediately after the execute-command
section when the automation flag is true and is entirely absent when it is
false, and the MCP-servers (registry-status) section always lies strictly
between the editing section and the rules section. -/
theorem c1_section_ordering :
    (∀ env cwd flag hub bs,
        SYSTEM_PROMPT env cwd flag hub bs =
          (renderAll (renderSection env cwd flag hub bs) (sectionIds flag)).map
            (joinWith "\n\n"))
  ∧ idxIn SectionId.browserAction (sectionIds true) =
      idxIn SectionId.executeCommand (sectionIds true) + 1
  ∧ SectionId.browserAction ∉ sectionIds false
  ∧ (∀ flag,
      idxIn SectionId.editing (sectionIds flag) <
          idxIn SectionId.mcpServers (sectionIds flag)
        ∧ idxIn SectionId.mcpServers (sectionIds flag) <
          idxIn SectionId.rules (sectionIds flag)) := by
  refine ⟨systemPrompt_renderAll, by decide, by decide, ?_⟩
  intro flag
  cases flag <;> exact ⟨by decide, by decide⟩

/-- C2 counterexample: with working directory "/a" the rules section renders
different text for the two automation-flag values (the flag-true text is
strictly longer by the two conditional fragments), so toggling the flag does
not leave every other section byte-identical. -/
theorem c2_counterexample : getRulesPrompt "/a" true ≠ getRulesPrompt "/a" false := by
  intro h
  have h2 : (getRulesPrompt "/a" true).length =
      (getRulesPrompt "/a" false).length := by rw [h]
  unfold getRulesPrompt at h2
  rw [if_pos rfl, if_pos rfl, if_neg Bool.false_ne_true, if_neg Bool.false_ne_true] at h2
  simp only [String.length_append] at h2
  have hf : 0 < rulesBrowserTaskFragment.length := by decide
  have h0 : ("" : String).length = 0 := rfl
  omega

/-- C2 (amended). Toggling only the automation flag changes the presence of the
browser-action section and at most the texts of the two sections that receive
the flag as a parameter (capabilities and rules): every other section renders
byte-identically under both flag values, and the flag-true section order is the
flag-false order with the browser-action section spliced in at index 3. -/
theorem c2_amended_flag_isolation :
    (∀ env cwd hub bs i, i ≠ SectionId.capabilities → i ≠ SectionId.rules →
        renderSection env cwd true hub bs i = renderSection env cwd false hub bs i)
  ∧ sectionIds true = spliceInsert 3 SectionId.browserAction (sectionIds false)
  ∧ SectionId.browserAction ∉ sectionIds false := by
  refine ⟨?_, by decide, by decide⟩
  intro env cwd hub bs i h1 h2
  cases i <;> first | exact absurd rfl h1 | exact absurd rfl h2 | rfl

/-- C2 witness: the base section at concrete inputs is unchanged by the flag. -/
theorem c2_amended_witness :
    renderSection envC "/a" true hubAlpha bsC SectionId.base =
      renderSection envC "/a" false hubAlpha bsC SectionId.base :=
  c2_amended_flag_isolation.1 envC "/a" hubAlpha bsC SectionId.base
    (by decide) (by decide)

/-- C6. A registry entry whose status is not "connected" is invisible: appending
it to the snapshot changes neither the MCP-servers section nor the MCP-creation
section of the document (it is neither rendered nor annotated as pending). -/
theorem c6_only_connected_rendered (hub : McpHub) (srv : McpServer)
    (h : srv.status ≠ "connected") :
    getMcpServersPrompt { hub with servers := hub.servers ++ [srv] } =
        getMcpServersPrompt hub
  ∧ getMcpCreationPrompt { hub with servers := hub.servers ++ [srv] } =
        getMcpCreationPrompt hub := by
  have hb : (srv.status == "connected") = false := by
    simpa using h
  have hfil : ((hub.servers ++ [srv]).filter fun server => server.status == "connected") =
      hub.servers.filter fun server => server.status == "connected" := by
    simp [List.filter_append, List.filter_cons, hb]
  constructor <;>
    simp only [getMcpServersPrompt, getMcpCreationPrompt, hfil]

/-- C6 witness: a failed server appended to the alpha snapshot leaves both
registry-dependent sections unchanged. -/
theorem c6_witness :
    getMcpServersPrompt
        { hubAlpha with servers := hubAlpha.servers ++ [⟨"ghost", "x", "failed", none⟩] } =
        getMcpServersPrompt hubAlpha
  ∧ getMcpCreationPrompt
        { hubAlpha with servers := hubAlpha.servers ++ [⟨"ghost", "x", "failed", none⟩] } =
        getMcpCreationPrompt hubAlpha :=
  c6_only_connected_rendered hubAlpha ⟨"ghost", "x", "failed", none⟩ (by decide)

/-- C7. Determinism: two registry hubs agreeing on the observable snapshot
(mode, server list, both path-lookup results) yield byte-identical documents
for fixed environment, cwd, capability flag and browser settings, regardless of
the hub's internal lifecycle state. -/
theorem c7_determinism (env : SysEnv) (cwd : String) (flag : Bool)
    (hub1 hub2 : McpHub) (bs : BrowserSettings)
    (hm : hub1.mode = hub2.mode) (hs : hub1.servers = hub2.servers)
    (hp : hub1.mcpServersPath = hub2.mcpServersPath)
    (hq : hub1.mcpSettingsFilePath = hub2.mcpSettingsFilePath) :
    SYSTEM_PROMPT env cwd flag hub1 bs = SYSTEM_PROMPT env cwd flag hub2 bs := by
  cases hub1
  cases hub2
  simp only at hm hs hp hq
  subst hm
  subst hs
  subst hp
  subst hq
  rfl

/-- C7 witness: the same observable snapshot with different internal generation
counters produces the same document. -/
theorem c7_witness :
    SYSTEM_PROMPT envC "/w" false hubAlpha bsC =
      SYSTEM_PROMPT envC "/w" false { hubAlpha with generation := 1 } bsC :=
  c7_determinism envC "/w" false hubAlpha { hubAlpha with generation := 1 } bsC
    rfl rfl rfl rfl

/-- With MCP mode off and successful path lookups, the servers section renders
empty and the joined document carries a doubled separator at that position. -/
theorem systemPromptModeOffDoubled (env : SysEnv) (cwd : String) (flag : Bool)
    (hub : McpHub) (bs : BrowserSettings) (p q : String)
    (hm : hub.mode = "off") (hp : hub.mcpServersPath = .ok p)
    (hq : hub.mcpSettingsFilePath = .ok q) :
    ∃ a b, SYSTEM_PROMPT env cwd flag hub bs = .ok (a ++ "\n\n\n\n" ++ b) := by
  have hserv : getMcpServersPrompt hub = .ok "" := by
    simp [getMcpServersPrompt, hm, pure, Except.pure]
  obtain ⟨C, hC⟩ : ∃ C, getMcpCreationPrompt hub = .ok C := by
    unfold getMcpCreationPrompt
    rw [hp, hq]
    exact ⟨_, rfl⟩
  cases flag with
  | false =>
    refine ⟨joinWith "\n\n"
        [getBasePrompt, getToolUsePrompt, getExecuteCommandPrompt cwd,
         getListCodeDefinitionNamesPrompt cwd, getListFilesPrompt cwd,
         getReadFilePrompt cwd, getReplaceInFilePrompt cwd, getSearchFilesPrompt cwd,
         getWriteToFilePrompt cwd, getAskFollowupQuestionPrompt,
         getAttemptCompletionPrompt, getPlanModeResponsePrompt, getUseMcpToolPrompt,
         getAccessMcpResourcePrompt, getModesPrompt,
         getCapabilitiesPrompt cwd false hub, getEditingPrompt],
      joinWith "\n\n"
        [getSystemInfoPrompt env cwd, getObjectivePrompt, getRulesPrompt cwd false, C],
      ?_⟩
    rw [← joinWith_split_empty _ _ (by simp) (by simp)]
    simp only [SYSTEM_PROMPT, hserv, hC, Except.bind, bind, Except.pure, pure]
    rfl
  | true =>
    refine ⟨joinWith "\n\n"
        [getBasePrompt, getToolUsePrompt, getExecuteCommandPrompt cwd,
         getBrowserActionPrompt bs, getListCodeDefinitionNamesPrompt cwd,
         getListFilesPrompt cwd, getReadFilePrompt cwd, getReplaceInFilePrompt cwd,
         getSearchFilesPrompt cwd, getWriteToFilePrompt cwd,
         getAskFollowupQuestionPrompt, getAttemptCompletionPrompt,
         getPlanModeResponsePrompt, getUseMcpToolPrompt, getAccessMcpResourcePrompt,
         getModesPrompt, getCapabilitiesPrompt cwd true hub, getEditingPrompt],
      joinWith "\n\n"
        [getSystemInfoPrompt env cwd, getObjectivePrompt, getRulesPrompt cwd true, C],
      ?_⟩
    rw [← joinWith_split_empty _ _ (by simp) (by simp)]
    simp only [SYSTEM_PROMPT, hserv, hC, Except.bind, bind, Except.pure, pure]
    rfl

/-- C3 counterexample: with MCP mode off the servers section renders empty, and
the assembled document at working directory "/x" contains a doubled
double-newline separator, so empty sections are not skipped before joining. -/
theorem c3_counterexample :
    ∃ a b, SYSTEM_PROMPT envC "/x" false hubOff bsC = .ok (a ++ "\n\n\n\n" ++ b) :=
  systemPromptModeOffDoubled envC "/x" false hubOff bsC
    "/home/user/mcp" "/home/user/settings.json" rfl rfl rfl

/-- C3 (amended). Empty section texts are not skipped before joining: the
composer joins the raw section array, so whenever the MCP-servers section
renders empty (MCP mode off) and the path lookups succeed, the assembled
document contains a doubled double-newline separator at that point. -/
theorem c3_amended_doubled_separator (env : SysEnv) (cwd : String) (flag : Bool)
    (hub : McpHub) (bs : BrowserSettings) (p q : String)
    (hm : hub.mode = "off") (hp : hub.mcpServersPath = .ok p)
    (hq : hub.mcpSettingsFilePath = .ok q) :
    ∃ a b, SYSTEM_PROMPT env cwd flag hub bs = .ok (a ++ "\n\n\n\n" ++ b) :=
  systemPromptModeOffDoubled env cwd flag hub bs p q hm hp hq

/-- C3 witness: the doubled separator instance at concrete inputs. -/
theorem c3_amended_witness :
    ∃ a b, SYSTEM_PROMPT envC "/w" false hubOff bsC = .ok (a ++ "\n\n\n\n" ++ b) :=
  c3_amended_doubled_separator envC "/w" false hubOff bsC
    "/home/user/mcp" "/home/user/settings.json" rfl rfl rfl

/-- C4 counterexample: when the registry install-path lookup fails, the
assembly call does not produce a document with a placeholder — the registry
failure propagates to the caller as the assembly's error. -/
theorem c4_counterexample :
    SYSTEM_PROMPT envC "/w" false hubBadPath bsC = .error "RegistryUnavailable" := rfl

/-- C4 (amended). Registry failure is not absorbed by the composer: whenever
the install-path lookup fails, the whole assembly call fails.  The recognizable
no-providers placeholder appears only on the successful path, when the
connected-server list renders empty, in which case the document is produced in
full. -/
theorem c4_amended_failure_propagation :
    (∀ env cwd flag hub bs e, hub.mcpServersPath = .error e →
        (SYSTEM_PROMPT env cwd flag hub bs).isOk = false)
  ∧ (∃ a b, getMcpServersPrompt hubEmptyOn =
        .ok (a ++ "(No MCP servers currently connected)" ++ b))
  ∧ (SYSTEM_PROMPT envC "/w" false hubEmptyOn bsC).isOk = true := by
  refine ⟨?_, ?_, by decide⟩
  · intro env cwd flag hub bs e he
    cases hs : getMcpServersPrompt hub with
    | error e2 =>
      simp [SYSTEM_PROMPT, hs, Except.bind, bind, Except.isOk, Except.toBool]
    | ok s =>
      simp [SYSTEM_PROMPT, hs, getMcpCreationPrompt, he, Except.bind, bind,
        Except.isOk, Except.toBool]
  · refine ⟨"\n====\n\nMCP SERVERS\n\nThe Model Context Protocol (MCP) enables communication"
        ++ " between the system and locally running MCP servers that provide additional tools"
        ++ " and resources to extend your capabilities.\n\n# Connected MCP Servers\n\n"
        ++ "When a server is connected, you can use the server\x27s tools via the `use_mcp_tool`"
        ++ " tool, and access the server\x27s resources via the `access_mcp_resource` tool.\n\n",
      "\n\n- MCP operations should be used one at a time, similar to other tool usage."
        ++ " Wait for confirmation of success before proceeding with additional operations.\n",
      ?_⟩
    have h : getMcpServersPrompt hubEmptyOn =
        .ok ("\n====\n\nMCP SERVERS\n\nThe Model Context Protocol (MCP) enables communication"
          ++ " between the system and locally running MCP servers that provide additional tools"
          ++ " and resources to extend your capabilities.\n\n# Connected MCP Servers\n\n"
          ++ "When a server is connected, you can use the server\x27s tools via the `use_mcp_tool`"
          ++ " tool, and access the server\x27s resources via the `access_mcp_resource` tool.\n\n"
          ++ "(No MCP servers currently connected)"
          ++ "\n\n- MCP operations should be used one at a time, similar to other tool usage."
          ++ " Wait for confirmation of success before proceeding with additional operations.\n") :=
      rfl
    rw [h]
    refine congrArg Except.ok (String.ext ?_)
    simp [String.data_append, List.append_assoc]

/-- C4 witness: the propagation conjunct applied at a concrete failing hub. -/
theorem c4_amended_witness :
    (SYSTEM_PROMPT envC "/w" false hubBadPath bsC).isOk = false :=
  c4_amended_failure_propagation.1 envC "/w" false hubBadPath bsC
    "RegistryUnavailable" rfl

/-- C5 counterexample: with registry path lookups returning host-native Windows
paths, the assembled document embeds them verbatim and contains backslash
separators, so not every embedded filesystem path is canonicalized. -/
theorem c5_counterexample :
    ∃ d, SYSTEM_PROMPT envC "/w" false hubBackslash bsC = .ok d ∧ '\\' ∈ d.data := by
  refine ⟨_, rfl, ?_⟩
  rw [if_neg Bool.false_ne_true]
  simp only [joinWith, String.data_append, List.mem_append]
  iterate 21 apply Or.inr
  repeat first
    | exact Or.inr (by decide)
    | apply Or.inl

/-- C5 (amended). The working directory and home directory are canonicalized:
`toPosix` output never contains a backslash, and the system-information and
rules sections are backslash-free whenever the ambient OS-name and shell
strings are.  The registry-provided install and settings paths, by contrast,
are embedded verbatim by the MCP-creation section and may retain backslashes
(see the counterexample). -/
theorem c5_amended_path_normalization :
    (∀ s : String, '\\' ∉ (String.toPosix s).data)
  ∧ (∀ env cwd, '\\' ∉ env.osName.data → '\\' ∉ env.shell.data →
        '\\' ∉ (getSystemInfoPrompt env cwd).data)
  ∧ (∀ cwd flag, '\\' ∉ (getRulesPrompt cwd flag).data) := by
  refine ⟨toPosix_no_backslash, ?_, ?_⟩
  · intro env cwd h1 h2
    simp only [getSystemInfoPrompt, String.data_append, List.mem_append, not_or]
    repeat' apply And.intro
    all_goals first
      | exact toPosix_no_backslash _
      | exact h1
      | exact h2
      | decide
  · intro cwd flag
    cases flag with
    | false =>
      simp only [getRulesPrompt, if_neg Bool.false_ne_true]
      simp only [String.data_append, List.mem_append, not_or]
      repeat' apply And.intro
      all_goals first
        | exact toPosix_no_backslash _
        | decide
    | true =>
      simp only [getRulesPrompt, if_pos trivial]
      simp only [String.data_append, List.mem_append, not_or]
      repeat' apply And.intro
      all_goals first
        | exact toPosix_no_backslash _
        | decide

/-- C5 witness: a backslashed working directory yields a backslash-free
system-information section. -/
theorem c5_amended_witness :
    '\\' ∉ (getSystemInfoPrompt envC "C:\\work").data :=
  c5_amended_path_normalization.2.1 envC "C:\\work" (by decide) (by decide)

/-- C8. Concrete scenario: automation off, registry enabled, one connected
server "alpha" exposing tool "fetch": the rendered registry entry list is
exactly the alpha block with its single tool line, the browser-action section
is absent, the mandatory sections appear in the fixed base order, and the
assembly produces a document. -/
theorem c8_example_scenario :
    mapExcept renderMcpServerEntry
        (hubAlpha.servers.filter fun server => server.status == "connected") =
      .ok ["## alpha (`node `)\n\n### Available Tools\n- fetch: retrieves a URL"]
  ∧ SectionId.browserAction ∉ sectionIds false
  ∧ sectionIds false = baseSectionIds
  ∧ (SYSTEM_PROMPT envC "/w" false hubAlpha bsC).isOk = true :=
  ⟨rfl, by decide, rfl, by decide⟩

/-- C9 counterexample: a call with the working directory missing is not
rejected before rendering begins — two sections render successfully before a
TypeError aborts the section array, and the error text does not name the
missing parameter. -/
theorem c9_counterexample :
    buildArray (sectionResultsDyn envC none false hubAlpha) =
      .error (2, "TypeError: Cannot read properties of undefined (reading \x27toPosix\x27)")
  ∧ strContains
      "TypeError: Cannot read properties of undefined (reading \x27toPosix\x27)" "cwd" =
      false :=
  ⟨rfl, by decide⟩

/-- C9 (amended). A missing working directory is not checked up front: for
every environment, capability flag, registry state and browser settings, the
assembly evaluates the first two (cwd-independent) sections and then throws a
TypeError from the execute-command renderer — the failure index 2 records that
rendering had already begun, and the error does not identify the parameter. -/
theorem c9_amended_no_upfront_check (env : SysEnv) (flag : Bool) (hub : McpHub)
    (bs : BrowserSettings) :
    buildArray (sectionResultsDyn env none flag hub) =
      .error (2, "TypeError: Cannot read properties of undefined (reading \x27toPosix\x27)")
  ∧ assembleDyn env none flag hub bs =
      .error (2, "TypeError: Cannot read properties of undefined (reading \x27toPosix\x27)") :=
  ⟨rfl, rfl⟩

/-- C10 counterexample: a registry snapshot whose connected server carries an
unparsable configuration descriptor does not always make the renderer throw —
with MCP mode off the section renders (empty) without touching the
configuration. -/
theorem c10_counterexample : getMcpServersPrompt hubOffBadCfg = .ok "" := rfl

/-- C10 (amended). When the MCP mode is not off, rendering the servers section
is total only if every connected server's configuration descriptor parses as
JSON: a snapshot containing a connected server with an unparsable descriptor
makes `getMcpServersPrompt` throw, and the whole assembly fails with it. -/
theorem c10_amended_bad_config_throws (hub : McpHub) (hmode : hub.mode ≠ "off")
    (srv : McpServer) (hmem : srv ∈ hub.servers) (hst : srv.status = "connected")
    (hcfg : parseJsonConfig srv.config = none) :
    (getMcpServersPrompt hub).isOk = false
  ∧ ∀ env cwd flag bs, (SYSTEM_PROMPT env cwd flag hub bs).isOk = false := by
  have hmemf : srv ∈ hub.servers.filter fun server => server.status == "connected" := by
    simp [List.mem_filter, hmem, hst]
  have hone : ∃ e, renderMcpServerEntry srv = .error e := by
    simp [renderMcpServerEntry, hcfg]
  obtain ⟨e, he⟩ := mapExcept_error_of_mem hmemf hone
  have hserv : getMcpServersPrompt hub = .error e := by
    simp [getMcpServersPrompt, hmode, he, Except.bind, bind, pure, Except.pure]
  constructor
  · simp [hserv, Except.isOk, Except.toBool]
  · intro env cwd flag bs
    simp [SYSTEM_PROMPT, hserv, Except.bind, bind, Except.isOk, Except.toBool]

/-- C10 witness: the throwing behavior at a concrete snapshot with an
unparsable descriptor and MCP mode on. -/
theorem c10_amended_witness :
    (getMcpServersPrompt hubBadCfg).isOk = false
  ∧ (SYSTEM_PROMPT envC "/w" false hubBadCfg bsC).isOk = false := by
  have h := c10_amended_bad_config_throws hubBadCfg (by decide)
    ⟨"bad", "oops", "connected", none⟩ (by decide) rfl (by decide)
  exact ⟨h.1, h.2 envC "/w" false bsC⟩
